import Mathlib

/-!
# Verification of the auth identity/token lifecycle engine

Shallow embedding of the core of the `auth` service (token issuance,
verification, revocation, OAuth identity linking, role resolution) and of
the shared retry combinator, together with proofs of the specified
properties.  Sources embedded:
* `src/auth/src/services/token.py`   (`TokenService`)
* `src/auth/src/services/user.py`    (`UserService`)
* `src/auth/src/services/role.py`    (`RoleService.assign_role`)
* `src/auth/src/api/v1/user.py`      (`signup`, `signin`, `refresh_token`,
  `signout` endpoints)
* `src/likes/src/utils/backoff.py`   (`backoff` retry decorator)

Machine integers, UUIDs and wall-clock instants are modelled as `Nat`
(seconds for time); password hashing (werkzeug) is modelled as an injective
constructor; a JWT is modelled as its payload plus the signing key and
algorithm, so that signature verification is key/algorithm equality.
-/

set_option linter.unusedVariables false

namespace Auth

/-! ## Settings — defaults from `src/auth/src/core/config.py` -/

structure Settings where
  secretKey : String
  algorithm : String := "HS256"
  accessTokenExpireInMinutes : Nat := 30
  refreshTokenExpireInDays : Nat := 7
  defaultRoleUuid : Nat := 0
  errorsMax : Nat := 10
deriving Repr, DecidableEq

/-! ## JWT model

A claims dictionary as built by `TokenService`: keys `sub`, `first_name`,
`last_name`, `roles` (a list of role names, standing for the
`[{"name": ...}]` dictionaries), `sup` (the token-kind discriminator) and
`exp`.  Absent keys are `none` / `[]`. -/

structure Payload where
  sub : Option String := none
  firstName : Option String := none
  lastName : Option String := none
  roles : List String := []
  sup : Option String := none
  exp : Option Nat := none
deriving Repr, DecidableEq

/-- A token string: either a well-formed JWT (payload, signing key,
algorithm) or a string that does not parse as a JWT at all. -/
inductive Token where
  | signed (payload : Payload) (key : String) (alg : String)
  | malformed (raw : String)
deriving Repr, DecidableEq

/-- `jwt.encode(payload, key, algorithm)`. -/
def jwtEncode (p : Payload) (key : String) (alg : String) : Token :=
  .signed p key alg

/-- `jwt.decode(token, key, algorithms=[alg])` at time `now`: succeeds when
the token parses, was signed with the same key and algorithm, and its `exp`
claim (when present) is still in the future; PyJWT treats `exp ≤ now` as
expired.  Every failure raises `InvalidTokenError`, modelled as `none`. -/
def jwtDecode (t : Token) (key : String) (alg : String) (now : Nat) :
    Option Payload :=
  match t with
  | .malformed _ => none
  | .signed p k a =>
      if k = key ∧ a = alg then
        match p.exp with
        | none => some p
        | some e => if now < e then some p else none
      else none

/-! ## Revocation Registry — Redis cache keyed by the token string.
Entries carry an absolute expiry instant (`set` with `ex=ttl` at time `now`
stores expiry `now + ttl`); `get` after expiry returns `none`. -/

abbrev Cache := List (Token × String × Nat)

def cacheSet (c : Cache) (k : Token) (v : String) (expireAt : Nat) : Cache :=
  (k, v, expireAt) :: c.filter (fun e => e.1 ≠ k)

def cacheGet (c : Cache) (k : Token) (now : Nat) : Option String :=
  match c.find? (fun e => e.1 = k) with
  | some (_, v, expireAt) => if now < expireAt then some v else none
  | none => none

def cacheDelete (c : Cache) (k : Token) : Cache :=
  c.filter (fun e => e.1 ≠ k)

/-! ## Python truthiness helpers -/

/-- `x or y` on optional strings (`None` and `""` are falsy). -/
def pyOrStr (new old : Option String) : Option String :=
  match new with
  | none => old
  | some st => if st = "" then old else some st

/-- `bool(x)` for an optional string. -/
def pyTruthy (o : Option String) : Bool :=
  match o with
  | none => false
  | some st => st ≠ ""

/-- `s.lower()` — ASCII lowercasing, character by character. -/
def pyLower (s : String) : String :=
  ⟨s.data.map Char.toLower⟩

instance {ε α : Type} [DecidableEq ε] [DecidableEq α] :
    DecidableEq (Except ε α) := fun a b =>
  match a, b with
  | .error x, .error y =>
      if h : x = y then isTrue (congrArg Except.error h)
      else isFalse (fun hc => h (Except.error.inj hc))
  | .ok x, .ok y =>
      if h : x = y then isTrue (congrArg Except.ok h)
      else isFalse (fun hc => h (Except.ok.inj hc))
  | .error _, .ok _ => isFalse (fun hc => Except.noConfusion hc)
  | .ok _, .error _ => isFalse (fun hc => Except.noConfusion hc)

/-! ## Password hashing (werkzeug), abstracted as an injective constructor -/

inductive PwHash where
  | hashOf (plain : String)
deriving Repr, DecidableEq

def generate_password_hash (p : String) : PwHash := .hashOf p

def check_password_hash (h : PwHash) (p : String) : Bool :=
  h = .hashOf p

/-! ## Credential Store rows (src/auth/src/db/models) -/

structure UserRec where
  id : Nat
  login : String
  password : PwHash
  firstName : Option String := none
  lastName : Option String := none
  isSuperuser : Bool := false
deriving Repr, DecidableEq

structure RoleRec where
  id : Nat
  name : String
deriving Repr, DecidableEq

structure UserRoleRec where
  userId : Nat
  roleId : Nat
deriving Repr, DecidableEq

/-- A `UserOauthProvider` row: the linked OAuth identity. -/
structure OauthIdentity where
  email : String
  firstName : Option String := none
  lastName : Option String := none
  userId : Option Nat := none
  provider : Option String := none
deriving Repr, DecidableEq

structure Db where
  users : List UserRec := []
  roles : List RoleRec := []
  userRoles : List UserRoleRec := []
  identities : List OauthIdentity := []
  providers : List String := []
  history : List Nat := []
  nextUserId : Nat := 0
deriving Repr, DecidableEq

/-! ## UserService (src/auth/src/services/user.py) -/

def get_by_login (db : Db) (login : String) : Option UserRec :=
  db.users.find? (fun u => u.login = login)

def create_or_update (db : Db) (login password : String)
    (firstName lastName : Option String) : UserRec × Db :=
  match get_by_login db login with
  | some existingUser =>
      let updated : UserRec :=
        { existingUser with
          firstName := pyOrStr firstName existingUser.firstName
          lastName := pyOrStr lastName existingUser.lastName
          password := generate_password_hash password }
      (updated,
        { db with
          users := db.users.map
            (fun v => if v.id = existingUser.id then updated else v) })
  | none =>
      let newUser : UserRec :=
        { id := db.nextUserId, login := login
          password := generate_password_hash password
          firstName := firstName, lastName := lastName }
      (newUser,
        { db with users := db.users ++ [newUser]
                  nextUserId := db.nextUserId + 1 })

def add_to_history (db : Db) (userId : Nat) : Db :=
  { db with history := db.history ++ [userId] }

def get_by_oauth (db : Db) (email : String) : Option OauthIdentity :=
  db.identities.find? (fun ou => ou.email = email)

def get_oauth_provider_by_name (db : Db) (name : String) : Option String :=
  db.providers.find? (fun p => p = name)

def oauth_create_or_update (db : Db) (userId : Option Nat)
    (providerName email : String) (firstName lastName : Option String) : Db :=
  match get_by_oauth db email with
  | some ou =>
      let updated : OauthIdentity :=
        { ou with
          firstName := pyOrStr firstName ou.firstName
          lastName := pyOrStr lastName ou.lastName
          provider := get_oauth_provider_by_name db providerName }
      { db with
        identities := db.identities.map
          (fun v => if v.email = ou.email then updated else v) }
  | none =>
      { db with
        identities := db.identities ++
          [{ email := email, firstName := firstName, lastName := lastName
             userId := userId
             provider := get_oauth_provider_by_name db providerName }] }

/-! ## RoleService.assign_role (src/auth/src/services/role.py):
an unconditional insert, no duplicate check at this layer. -/

def assign_role (db : Db) (userId roleId : Nat) : Db :=
  { db with userRoles := db.userRoles ++ [⟨userId, roleId⟩] }

/-! ## TokenService (src/auth/src/services/token.py) -/

def create_access_token (s : Settings) (data : Payload) (now : Nat) : Token :=
  jwtEncode
    { data with
      sup := some "access"
      exp := some (now + s.accessTokenExpireInMinutes * 60) }
    s.secretKey s.algorithm

def refreshExpireSeconds (s : Settings) : Nat :=
  s.refreshTokenExpireInDays * 24 * 60 * 60

def create_refresh_token (s : Settings) (data : Payload) (cache : Cache)
    (now : Nat) : Token × Cache :=
  let tok := jwtEncode
    { data with
      sup := some "refresh"
      exp := some (now + refreshExpireSeconds s) }
    s.secretKey s.algorithm
  (tok, cacheSet cache tok "valid" (now + refreshExpireSeconds s))

def verify_token (s : Settings) (t : Token) (now : Nat) : Option Payload :=
  jwtDecode t s.secretKey s.algorithm now

def invalidate_refresh_token (t : Token) (cache : Cache) : Cache :=
  cacheDelete cache t

def generate_payload (db : Db) (u : UserRec) : List String × Payload :=
  let roles :=
    (db.userRoles.filter (fun ur => ur.userId = u.id)).filterMap
      (fun ur => (db.roles.find? (fun r => r.id = ur.roleId)).map
        (fun r => r.name))
  (roles,
    { sub := some u.login, firstName := u.firstName
      lastName := u.lastName, roles := roles })

/-! ## HTTP-level errors raised by the endpoints (exact details from
src/auth/src/api/v1/user.py) -/

structure HTTPError where
  statusCode : Nat
  detail : String
deriving Repr, DecidableEq

def userAlreadyExistsErr : HTTPError := ⟨409, "User already exists!"⟩
def providerNotAvailableErr : HTTPError := ⟨404, "Provider service not available."⟩
def invalidOauthTokenErr : HTTPError := ⟨400, "Invalid OAuth token."⟩
def invalidOauthProviderErr : HTTPError := ⟨400, "Invalid OAuth provider."⟩
def identityConflictErr : HTTPError :=
  ⟨400, "This OAuth user is already linked to a different local user. Call support!"⟩
def cannotFindAssociationErr : HTTPError :=
  ⟨400, "Cannot find association with a local User. Call support!"⟩
def invalidCredentialsErr : HTTPError := ⟨400, "Invalid credentials"⟩
def refreshTokenNotFoundErr : HTTPError := ⟨400, "Refresh token not found"⟩
def invalidRefreshTokenErr : HTTPError := ⟨400, "Invalid refresh token"⟩

/-- The spec's `InvalidRefreshToken` taxon (§7) covers both 400 responses a
failing refresh-token check can produce: the registry miss and the
signature/kind/expiry failure. -/
def isInvalidRefreshTokenError (e : HTTPError) : Prop :=
  e = refreshTokenNotFoundErr ∨ e = invalidRefreshTokenErr

instance (e : HTTPError) : Decidable (isInvalidRefreshTokenError e) := by
  unfold isInvalidRefreshTokenError; infer_instance

/-! ## Endpoints (src/auth/src/api/v1/user.py) -/

def signup_endpoint (s : Settings) (db : Db) (login password : String)
    (firstName lastName : Option String) : Except HTTPError UserRec × Db :=
  match get_by_login db login with
  | some _ => (.error userAlreadyExistsErr, db)
  | none =>
      let cu := create_or_update db login password firstName lastName
      (.ok cu.1, assign_role cu.2 cu.1.id s.defaultRoleUuid)

structure SigninOk where
  accessToken : Token
  refreshToken : Token
  userId : Nat
  userLogin : String
  roles : List String
deriving Repr, DecidableEq

structure TokenPair where
  accessToken : Token
  refreshToken : Token
deriving Repr, DecidableEq

/-- The remote profile returned by `oauth_service.get_user_info`
(`user_info.get("login"/"first_name"/"last_name")`). -/
structure RemoteProfile where
  login : Option String := none
  firstName : Option String := none
  lastName : Option String := none
deriving Repr, DecidableEq

/-- The OAuth part of a `/signin` request: the supplied provider name, the
outcome of the (external) profile fetch for the supplied token, and the
value `secrets.token_urlsafe(8)` drawn for a newly created user. -/
structure OauthAttempt where
  provider : String
  profile : Except HTTPError RemoteProfile
  randomPassword : String
deriving Repr

/-- The conflict test at src/auth/src/api/v1/user.py:118:
`oauth_user.user is not None and oauth_user.user != user`, where `user` is
the (possibly absent) local user matched by the supplied login. -/
def oauthConflict (oauthUser : Option OauthIdentity)
    (user0 : Option UserRec) : Bool :=
  match oauthUser with
  | none => false
  | some ou =>
      match ou.userId with
      | none => false
      | some uid => user0.map (fun u => u.id) ≠ some uid

/-- Lines 157–174 of the endpoint, shared by both sign-in paths: resolve
roles, issue the access token, issue and register the refresh token,
append the history row. -/
def signinFinish (s : Settings) (db : Db) (cache : Cache) (now : Nat)
    (u : UserRec) : Except HTTPError SigninOk × Db × Cache :=
  let rp := generate_payload db u
  let accessTok := create_access_token s rp.2 now
  let rt := create_refresh_token s { sub := some u.login } cache now
  (.ok ⟨accessTok, rt.1, u.id, u.login, rp.1⟩, add_to_history db u.id, rt.2)

def signin_endpoint (s : Settings) (db : Db) (cache : Cache) (now : Nat)
    (login : String) (password : Option String)
    (oauth : Option OauthAttempt) :
    Except HTTPError SigninOk × Db × Cache :=
  let user0 := get_by_login db login
  match oauth with
  | some att =>
      if pyLower att.provider = "yandex" then
        match att.profile with
        | .error e => (.error e, db, cache)
        | .ok info =>
            if pyTruthy info.login then
              let email := info.login.getD ""
              match get_oauth_provider_by_name db att.provider with
              | none => (.error invalidOauthProviderErr, db, cache)
              | some _ =>
                  let oauthUser := get_by_oauth db email
                  if oauthConflict oauthUser user0 then
                    (.error identityConflictErr, db, cache)
                  else
                    let created :=
                      match user0 with
                      | some u => (u, db)
                      | none =>
                          let cu := create_or_update db login
                            att.randomPassword info.firstName info.lastName
                          let db2 := assign_role cu.2 cu.1.id s.defaultRoleUuid
                          ((get_by_login db2 login).getD cu.1, db2)
                    match oauthUser with
                    | none =>
                        let db2 := oauth_create_or_update created.2
                          (some created.1.id) att.provider email
                          info.firstName info.lastName
                        signinFinish s db2 cache now created.1
                    | some ou =>
                        match ou.userId.bind
                            (fun uid => created.2.users.find?
                              (fun v => v.id = uid)) with
                        | none => (.error cannotFindAssociationErr, created.2, cache)
                        | some u2 => signinFinish s created.2 cache now u2
            else (.error invalidOauthTokenErr, db, cache)
      else (.error providerNotAvailableErr, db, cache)
  | none =>
      match user0 with
      | none => (.error invalidCredentialsErr, db, cache)
      | some u =>
          if (match password with
              | some pw => check_password_hash u.password pw
              | none => false) then
            signinFinish s db cache now u
          else (.error invalidCredentialsErr, db, cache)

def refresh_endpoint (s : Settings) (db : Db) (cache : Cache) (now : Nat)
    (refreshTok : Token) : Except HTTPError TokenPair × Cache :=
  if pyTruthy (cacheGet cache refreshTok now) then
    match verify_token s refreshTok now with
    | none => (.error invalidRefreshTokenErr, cache)
    | some payload =>
        if payload.sup = some "refresh" then
          match payload.sub.bind (fun l => get_by_login db l) with
          | none => (.error invalidCredentialsErr, cache)
          | some user =>
              let rp := generate_payload db user
              (.ok ⟨create_access_token s rp.2 now, refreshTok⟩, cache)
        else (.error invalidRefreshTokenErr, cache)
  else (.error refreshTokenNotFoundErr, cache)

def signout_endpoint (cache : Cache) (refreshTok : Token) : Cache :=
  invalidate_refresh_token refreshTok cache

/-! ## Concrete fixtures used by witnesses and counterexamples -/

def exSettings : Settings := { secretKey := "k" }

def exProfile : RemoteProfile := { login := some "e@x", firstName := some "A" }

def exAttempt : OauthAttempt :=
  { provider := "yandex", profile := .ok exProfile, randomPassword := "rnd" }

def exUserBob : UserRec := { id := 1, login := "bob", password := .hashOf "pw2" }

/-- A store holding one unrelated user `bob` plus the seeded role and the
`yandex` provider row; no user `alice`, no identity for `e@x`. -/
def exDbStart : Db :=
  { users := [exUserBob], roles := [⟨0, "user"⟩], userRoles := [⟨1, 0⟩]
    providers := ["yandex"], nextUserId := 2 }

/-- A store in which the identity `e@x` is already bound to the local user
`alice` (id 0) and an unrelated local user `bob` exists. -/
def exDbLinked : Db :=
  { users := [{ id := 0, login := "alice", password := .hashOf "pw" }, exUserBob]
    roles := [⟨0, "user"⟩], userRoles := [⟨0, 0⟩, ⟨1, 0⟩]
    identities := [{ email := "e@x", userId := some 0, provider := some "yandex" }]
    providers := ["yandex"], nextUserId := 2 }

/-! ## Retry combinator (src/likes/src/utils/backoff.py)

`backoff` wraps an async callable.  One execution of the wrapped callable
either returns a value, raises `httpx.RequestError` (a transport-level
connection/timeout failure), or raises an application-level exception
(`fastapi.HTTPException` in the OAuth gateway).  The decorator retries only
on `httpx.RequestError`: it sleeps, grows the wait exponentially up to
`border_sleep_time`, and gives up with a bare `Exception` (the spec's
`UpstreamUnavailable`) after `settings.errors_max` attempts.  Wait times
are modelled as exact rationals. -/

inductive CallResult (α : Type) where
  | success (a : α)
  | transportError
  | appError (e : HTTPError)
deriving Repr, DecidableEq

inductive BackoffOutcome (α : Type) where
  | ok (a : α) (callsMade : Nat) (waits : List ℚ)
  | appError (e : HTTPError) (callsMade : Nat) (waits : List ℚ)
  | maxRetryExceeded (waits : List ℚ)
deriving Repr, DecidableEq

/-- The sleeps the run performed, in order. -/
def BackoffOutcome.waits {α : Type} : BackoffOutcome α → List ℚ
  | .ok _ _ ws => ws
  | .appError _ _ ws => ws
  | .maxRetryExceeded ws => ws

/-- The `while attempt < settings.errors_max` loop of `backoff`, with the
attempt counter, current `wait_time` and the sleeps performed so far as
explicit state; `behavior k` is the outcome of the `k`-th execution of the
wrapped callable. -/
def backoffAux {α : Type} (errorsMax : Nat) (behavior : Nat → CallResult α)
    (startSleepTime factor borderSleepTime : ℚ)
    (attempt : Nat) (waitTime : ℚ) (acc : List ℚ) : BackoffOutcome α :=
  if h : attempt < errorsMax then
    match behavior attempt with
    | .success a => .ok a (attempt + 1) acc.reverse
    | .appError e => .appError e (attempt + 1) acc.reverse
    | .transportError =>
        backoffAux errorsMax behavior startSleepTime factor borderSleepTime
          (attempt + 1)
          (if waitTime < borderSleepTime then
            min (startSleepTime * factor ^ (attempt + 1)) borderSleepTime
          else waitTime)
          (waitTime :: acc)
  else .maxRetryExceeded acc.reverse
termination_by errorsMax - attempt
decreasing_by omega

/-- `backoff()` with its default parameters `start_sleep_time=0.1`,
`factor=2`, `border_sleep_time=10`, run against `settings.errors_max`. -/
def backoff_run {α : Type} (errorsMax : Nat) (behavior : Nat → CallResult α) :
    BackoffOutcome α :=
  backoffAux errorsMax behavior (1 / 10) 2 10 0 (1 / 10) []

/-- Closed form of the successive `wait_time` values of a run that keeps
hitting transport errors: `min(0.1 * 2^i, 10)`. -/
def waitSeq (i : Nat) : ℚ :=
  min ((1 / 10 : ℚ) * 2 ^ i) 10

/-- One un-retried execution of `OauthYandexService.get_access_token`
(the profile fetch `get_user_info` is analogous): a transport failure
raises `httpx.RequestError`, which the `backoff` wrapper retries; a
response whose JSON carries an `error` field raises `HTTPException 400`
with the provider's error description — an application-level error; and
otherwise the response's `access_token` is returned. -/
inductive ProviderResponse where
  | transportFailure
  | errorField (description : String)
  | tokenSuccess (accessToken : String)
deriving Repr, DecidableEq

def get_access_token_attempt (r : ProviderResponse) : CallResult String :=
  match r with
  | .transportFailure => .transportError
  | .errorField desc => .appError ⟨400, desc⟩
  | .tokenSuccess tok => .success tok

/-! ## Helper lemmas about the cache -/

theorem cacheGet_set_self (c : Cache) (k : Token) (v : String) (e now : Nat) :
    cacheGet (cacheSet c k v e) k now = if now < e then some v else none := by
  simp [cacheGet, cacheSet, List.find?]

theorem find?_filter_ne_none (c : Cache) (k : Token) :
    (c.filter (fun e => e.1 ≠ k)).find? (fun e => e.1 = k) = none := by
  rw [List.find?_eq_none]
  intro x hx
  have hmem := List.of_mem_filter hx
  simpa using hmem

theorem cacheGet_delete_self (c : Cache) (k : Token) (now : Nat) :
    cacheGet (cacheDelete c k) k now = none := by
  unfold cacheGet cacheDelete
  rw [find?_filter_ne_none]

theorem cacheDelete_idem (c : Cache) (k : Token) :
    cacheDelete (cacheDelete c k) k = cacheDelete c k := by
  unfold cacheDelete
  rw [List.filter_filter]
  apply List.filter_congr
  intro x hx
  simp

/-! ## Helper lemmas about `find?` on appended rows -/

theorem find?_append_of_none {α : Type} (l : List α) (p : α → Bool) (x : α)
    (h : l.find? p = none) (hx : p x = true) :
    (l ++ [x]).find? p = some x := by
  induction l with
  | nil => simp [List.find?, hx]
  | cons a l ih =>
      rw [List.find?_eq_none] at h
      have ha : p a = false := by
        have := h a (by simp)
        simpa using this
      have hrest : l.find? p = none := by
        rw [List.find?_eq_none]
        intro y hy
        exact h y (by simp [hy])
      simpa [List.find?, ha] using ih hrest

/-- The refresh endpoint only reads the registry: the cache it returns is
the cache it was given, in every branch. -/
theorem refresh_endpoint_cache_eq (s : Settings) (db : Db) (cache : Cache)
    (now : Nat) (tok : Token) :
    (refresh_endpoint s db cache now tok).2 = cache := by
  unfold refresh_endpoint
  split
  · split
    · rfl
    · split
      · split <;> rfl
      · rfl
  · rfl

/-! ## C4 -/

/-- C4: every access token issued by `create_access_token` at time `T`
verifies to claims with kind discriminator `"access"` and expiry exactly
`T + access_ttl` (in seconds, `access_ttl` being the configured minutes;
default 30 minutes); verification succeeds strictly before the expiry and
fails from the expiry on (in particular one second before / one second
after); and the refresh call, which issues an access token, performs no
Revocation Registry write. -/
theorem access_token_roundtrip (s : Settings) (data : Payload)
    (issuedAt t : Nat) :
    (t < issuedAt + s.accessTokenExpireInMinutes * 60 →
      verify_token s (create_access_token s data issuedAt) t =
        some { data with
               sup := some "access"
               exp := some (issuedAt + s.accessTokenExpireInMinutes * 60) })
    ∧ (issuedAt + s.accessTokenExpireInMinutes * 60 ≤ t →
      verify_token s (create_access_token s data issuedAt) t = none)
    ∧ ({ secretKey := s.secretKey } : Settings).accessTokenExpireInMinutes = 30
    ∧ (∀ (db : Db) (cache : Cache) (tok : Token),
        (refresh_endpoint s db cache t tok).2 = cache) := by
  refine ⟨?_, ?_, rfl, ?_⟩
  · intro h
    simp [verify_token, create_access_token, jwtEncode, jwtDecode, h]
  · intro h
    simp [verify_token, create_access_token, jwtEncode, jwtDecode,
      Nat.not_lt.mpr h]
  · intro db cache tok
    exact refresh_endpoint_cache_eq s db cache t tok

/-- Witness for C4 at the one-second boundaries around the default
30-minute expiry. -/
theorem access_token_roundtrip_witness :
    verify_token exSettings (create_access_token exSettings {} 0) 1799 =
      some { sup := some "access", exp := some 1800 }
    ∧ verify_token exSettings (create_access_token exSettings {} 0) 1801 =
      none := by
  constructor
  · exact (access_token_roundtrip exSettings {} 0 1799).1 (by decide)
  · exact (access_token_roundtrip exSettings {} 0 1801).2.1 (by decide)

/-! ## C6 -/

/-- C6 counterexample: the claim says `verify` reports which of the three
failure modes occurred (bad signature, malformed, expired).  In the code
(`TokenService.verify_token`) every `jwt.exceptions.InvalidTokenError` is
caught and mapped to `None`: at these three concrete inputs — a token
signed under a different key, an unparsable string, and an expired token —
the results are all equal to the same opaque `none`, so the failure modes
are not distinguished. -/
theorem verify_failures_indistinguishable :
    verify_token exSettings (.signed { exp := some 10 } "wrong" "HS256") 0 = none
    ∧ verify_token exSettings (.malformed "x") 0 = none
    ∧ verify_token exSettings (.signed { exp := some 10 } "k" "HS256") 11 = none := by
  refine ⟨?_, rfl, ?_⟩ <;> decide

/-- C6 (amended): for every invalid token — bad signature key, wrong
algorithm, malformed structure, or expired — `verify_token` returns the
single opaque failure value `None` (it does not throw, and does not report
the specific reason); for a valid token it returns the decoded claims; and
token-kind discrimination is left to the caller (the refresh endpoint
itself rejects a verified token whose `sup` is not `"refresh"`). -/
theorem verify_token_behavior (s : Settings) (p : Payload) (raw k a : String)
    (now e : Nat) :
    (p.exp = some e → now < e →
      verify_token s (.signed p s.secretKey s.algorithm) now = some p)
    ∧ (p.exp = some e → e ≤ now →
      verify_token s (.signed p s.secretKey s.algorithm) now = none)
    ∧ (k ≠ s.secretKey → verify_token s (.signed p k a) now = none)
    ∧ (a ≠ s.algorithm → verify_token s (.signed p k a) now = none)
    ∧ verify_token s (.malformed raw) now = none
    ∧ (∀ (db : Db) (cache : Cache) (t : Token),
        pyTruthy (cacheGet cache t now) = true →
        verify_token s t now = some p → p.sup ≠ some "refresh" →
        (refresh_endpoint s db cache now t).1 = .error invalidRefreshTokenErr) := by
  refine ⟨?_, ?_, ?_, ?_, rfl, ?_⟩
  · intro hexp hlt
    simp [verify_token, jwtDecode, hexp, hlt]
  · intro hexp hge
    simp [verify_token, jwtDecode, hexp, Nat.not_lt.mpr hge]
  · intro hk
    simp [verify_token, jwtDecode, hk]
  · intro ha
    simp [verify_token, jwtDecode, ha]
  · intro db cache t hlive hver hsup
    unfold refresh_endpoint
    rw [hlive, if_pos rfl, hver]
    simp [hsup]

/-- Witness for C6's amended theorem: a concrete valid decode, the three
concrete failures, and a concrete wrong-kind refresh rejection. -/
theorem verify_token_behavior_witness :
    verify_token exSettings (.signed { sup := some "access", exp := some 10 } "k" "HS256") 3 =
      some { sup := some "access", exp := some 10 }
    ∧ verify_token exSettings (.signed { exp := some 10 } "wrong" "HS256") 3 = none
    ∧ (refresh_endpoint exSettings exDbStart
        [(.signed { sup := some "access", exp := some 10 } "k" "HS256", "valid", 9)] 3
        (.signed { sup := some "access", exp := some 10 } "k" "HS256")).1 =
      .error invalidRefreshTokenErr := by
  refine ⟨?_, ?_, ?_⟩
  · exact (verify_token_behavior exSettings
      { sup := some "access", exp := some 10 } "x" "wrong" "HS256" 3 10).1
      rfl (by decide)
  · exact (verify_token_behavior exSettings
      { exp := some 10 } "x" "wrong" "HS256" 3 10).2.2.1 (by decide)
  · exact (verify_token_behavior exSettings
      { sup := some "access", exp := some 10 } "x" "wrong" "HS256" 3 10).2.2.2.2.2
      exDbStart _ _ (by decide) (by decide) (by decide)

/-! ## C5 -/

/-- C5: right after `create_refresh_token` registers a token it is live in
the registry; after revocation it is not live at any time, and a refresh
with it fails with the registry-miss form of `InvalidRefreshToken`;
revocation (and hence `signout`) is idempotent — deleting an
already-deleted or absent key is not an error and changes nothing. -/
theorem refresh_token_lifecycle (s : Settings) (data : Payload)
    (cache : Cache) (now : Nat) (db : Db)
    (hdays : 0 < s.refreshTokenExpireInDays) :
    cacheGet (create_refresh_token s data cache now).2
      (create_refresh_token s data cache now).1 now = some "valid"
    ∧ (∀ t : Nat,
        cacheGet
          (cacheDelete (create_refresh_token s data cache now).2
            (create_refresh_token s data cache now).1)
          (create_refresh_token s data cache now).1 t = none)
    ∧ (refresh_endpoint s db
        (cacheDelete (create_refresh_token s data cache now).2
          (create_refresh_token s data cache now).1)
        now (create_refresh_token s data cache now).1).1 =
      .error refreshTokenNotFoundErr
    ∧ isInvalidRefreshTokenError refreshTokenNotFoundErr
    ∧ (∀ (c : Cache) (k : Token), cacheDelete (cacheDelete c k) k = cacheDelete c k)
    ∧ (∀ (c : Cache) (k : Token),
        signout_endpoint (signout_endpoint c k) k = signout_endpoint c k) := by
  have hpos : 0 < refreshExpireSeconds s := by
    unfold refreshExpireSeconds
    positivity
  refine ⟨?_, ?_, ?_, Or.inl rfl, ?_, ?_⟩
  · rw [show (create_refresh_token s data cache now).2 =
        cacheSet cache (create_refresh_token s data cache now).1 "valid"
          (now + refreshExpireSeconds s) from rfl]
    rw [cacheGet_set_self]
    simp [Nat.lt_add_of_pos_right hpos]
  · intro t
    exact cacheGet_delete_self _ _ t
  · unfold refresh_endpoint
    rw [cacheGet_delete_self]
    rfl
  · intro c k
    exact cacheDelete_idem c k
  · intro c k
    unfold signout_endpoint invalidate_refresh_token
    exact cacheDelete_idem c k

/-- Witness for C5 at a concrete issuance (default 7-day TTL). -/
theorem refresh_token_lifecycle_witness :
    cacheGet (create_refresh_token exSettings { sub := some "alice" } [] 100).2
      (create_refresh_token exSettings { sub := some "alice" } [] 100).1 100 =
      some "valid"
    ∧ (refresh_endpoint exSettings exDbStart
        (cacheDelete (create_refresh_token exSettings { sub := some "alice" } [] 100).2
          (create_refresh_token exSettings { sub := some "alice" } [] 100).1)
        100 (create_refresh_token exSettings { sub := some "alice" } [] 100).1).1 =
      .error refreshTokenNotFoundErr := by
  have h := refresh_token_lifecycle exSettings { sub := some "alice" } [] 100
    exDbStart (by decide)
  exact ⟨h.1, h.2.2.1⟩

/-! ## C1 -/

/-- C1: a refresh call issues an access token only when the registry
reports the token live, the signature verifies, and the decoded kind
discriminator is `"refresh"`; whenever any of those three checks fails the
call returns one of the two 400 errors the spec's taxonomy groups under
`InvalidRefreshToken`, and no access token is issued. -/
theorem refresh_requires_all_checks (s : Settings) (db : Db) (cache : Cache)
    (now : Nat) (tok : Token) :
    ((∃ pair, (refresh_endpoint s db cache now tok).1 = .ok pair) →
      pyTruthy (cacheGet cache tok now) = true
      ∧ ∃ p, verify_token s tok now = some p ∧ p.sup = some "refresh")
    ∧ (¬ (pyTruthy (cacheGet cache tok now) = true
          ∧ ∃ p, verify_token s tok now = some p ∧ p.sup = some "refresh") →
      ∃ e, (refresh_endpoint s db cache now tok).1 = .error e
        ∧ isInvalidRefreshTokenError e) := by
  constructor
  · rintro ⟨pair, hp⟩
    unfold refresh_endpoint at hp
    by_cases hl : pyTruthy (cacheGet cache tok now) = true
    · rw [if_pos hl] at hp
      refine ⟨hl, ?_⟩
      cases hv : verify_token s tok now with
      | none => rw [hv] at hp; exact absurd hp (by simp)
      | some p =>
          rw [hv] at hp
          refine ⟨p, rfl, ?_⟩
          by_cases hsup : p.sup = some "refresh"
          · exact hsup
          · simp [hsup] at hp
    · rw [if_neg hl] at hp; exact absurd hp (by simp)
  · intro hn
    unfold refresh_endpoint
    by_cases hl : pyTruthy (cacheGet cache tok now) = true
    · rw [if_pos hl]
      cases hv : verify_token s tok now with
      | none => exact ⟨invalidRefreshTokenErr, rfl, Or.inr rfl⟩
      | some p =>
          by_cases hsup : p.sup = some "refresh"
          · exact absurd ⟨hl, p, hv, hsup⟩ hn
          · exact ⟨invalidRefreshTokenErr, by simp [hsup], Or.inr rfl⟩
    · rw [if_neg hl]
      exact ⟨refreshTokenNotFoundErr, rfl, Or.inl rfl⟩

/-- Witness for C1: a token absent from the registry fails with an
`InvalidRefreshToken`-class error. -/
theorem refresh_requires_all_checks_witness :
    ∃ e, (refresh_endpoint exSettings exDbStart [] 0 (.malformed "x")).1 =
      .error e ∧ isInvalidRefreshTokenError e := by
  exact (refresh_requires_all_checks exSettings exDbStart [] 0
    (.malformed "x")).2 (by decide)

/-! ## C3 -/

/-- C3: when every check passes (registry live, signature, kind, and the
subject resolves to a user), the refresh call returns a freshly issued
access token together with exactly the refresh token it was given — no new
refresh token — and the endpoint never creates or modifies any Revocation
Registry entry. -/
theorem refresh_success_no_rotation (s : Settings) (db : Db) (cache : Cache)
    (now : Nat) (tok : Token) (p : Payload) (u : UserRec)
    (hlive : pyTruthy (cacheGet cache tok now) = true)
    (hver : verify_token s tok now = some p)
    (hsup : p.sup = some "refresh")
    (hsub : p.sub.bind (fun l => get_by_login db l) = some u) :
    (refresh_endpoint s db cache now tok).1 =
      .ok ⟨create_access_token s (generate_payload db u).2 now, tok⟩
    ∧ (∀ (db2 : Db) (cache2 : Cache) (now2 : Nat) (tok2 : Token),
        (refresh_endpoint s db2 cache2 now2 tok2).2 = cache2) := by
  constructor
  · unfold refresh_endpoint
    rw [if_pos hlive, hver]
    simp [hsup, hsub]
  · intro db2 cache2 now2 tok2
    exact refresh_endpoint_cache_eq s db2 cache2 now2 tok2

/-- Witness for C3: a concrete live, valid refresh token for `bob`. -/
theorem refresh_success_no_rotation_witness :
    (refresh_endpoint exSettings exDbStart
      [(.signed { sub := some "bob", sup := some "refresh", exp := some 1000 } "k" "HS256",
        "valid", 1000)] 10
      (.signed { sub := some "bob", sup := some "refresh", exp := some 1000 } "k" "HS256")).1 =
    .ok ⟨create_access_token exSettings (generate_payload exDbStart exUserBob).2 10,
         .signed { sub := some "bob", sup := some "refresh", exp := some 1000 } "k" "HS256"⟩ := by
  exact (refresh_success_no_rotation exSettings exDbStart
    [(.signed { sub := some "bob", sup := some "refresh", exp := some 1000 } "k" "HS256",
      "valid", 1000)] 10
    (.signed { sub := some "bob", sup := some "refresh", exp := some 1000 } "k" "HS256")
    { sub := some "bob", sup := some "refresh", exp := some 1000 } exUserBob
    (by decide) (by decide) rfl (by decide)).1

/-! ## C10 -/

/-- C10: a refresh token that is live, verifies, and has kind `"refresh"`,
but whose subject login matches no existing user, fails with the
`"Invalid credentials"` 400 error — an error distinct from both
`InvalidRefreshToken` forms — and no access token is issued. -/
theorem refresh_unknown_subject (s : Settings) (db : Db) (cache : Cache)
    (now : Nat) (tok : Token) (p : Payload)
    (hlive : pyTruthy (cacheGet cache tok now) = true)
    (hver : verify_token s tok now = some p)
    (hsup : p.sup = some "refresh")
    (hsub : p.sub.bind (fun l => get_by_login db l) = none) :
    (refresh_endpoint s db cache now tok).1 = .error invalidCredentialsErr
    ∧ invalidCredentialsErr ≠ refreshTokenNotFoundErr
    ∧ invalidCredentialsErr ≠ invalidRefreshTokenErr
    ∧ ¬ isInvalidRefreshTokenError invalidCredentialsErr := by
  refine ⟨?_, by decide, by decide, by decide⟩
  unfold refresh_endpoint
  rw [if_pos hlive, hver]
  simp [hsup, hsub]

/-- Witness for C10: a live, valid refresh token whose subject `ghost`
matches no user. -/
theorem refresh_unknown_subject_witness :
    (refresh_endpoint exSettings exDbStart
      [(.signed { sub := some "ghost", sup := some "refresh", exp := some 1000 } "k" "HS256",
        "valid", 1000)] 10
      (.signed { sub := some "ghost", sup := some "refresh", exp := some 1000 } "k" "HS256")).1 =
    .error invalidCredentialsErr := by
  exact (refresh_unknown_subject exSettings exDbStart
    [(.signed { sub := some "ghost", sup := some "refresh", exp := some 1000 } "k" "HS256",
      "valid", 1000)] 10
    (.signed { sub := some "ghost", sup := some "refresh", exp := some 1000 } "k" "HS256")
    { sub := some "ghost", sup := some "refresh", exp := some 1000 }
    (by decide) (by decide) rfl (by decide)).1

/-! ## C9 -/

/-- C9: calling `create_or_update` for a login that already has a user does
not fail: it keeps the row (same id and login, no new row), replaces the
stored password hash with the hash of the new password, and overwrites the
first/last name exactly when the new value is non-empty (Python `or`
semantics); uniqueness of signup is enforced solely by the pre-check in the
signup endpoint, which rejects the duplicate with `"User already exists!"`
before `create_or_update` is reached. -/
theorem create_or_update_overwrites (db : Db) (login pw : String)
    (fn ln : Option String) (u0 : UserRec)
    (h : get_by_login db login = some u0) :
    (create_or_update db login pw fn ln).1.password = generate_password_hash pw
    ∧ (create_or_update db login pw fn ln).1.firstName = pyOrStr fn u0.firstName
    ∧ (create_or_update db login pw fn ln).1.lastName = pyOrStr ln u0.lastName
    ∧ (create_or_update db login pw fn ln).1.id = u0.id
    ∧ (create_or_update db login pw fn ln).1.login = u0.login
    ∧ (create_or_update db login pw fn ln).2.users.length = db.users.length
    ∧ (∀ nm, fn = some nm → nm ≠ "" →
        (create_or_update db login pw fn ln).1.firstName = some nm)
    ∧ (∀ s : Settings,
        (signup_endpoint s db login pw fn ln).1 = .error userAlreadyExistsErr) := by
  unfold create_or_update
  rw [h]
  refine ⟨rfl, rfl, rfl, rfl, rfl, by simp, ?_, ?_⟩
  · intro nm hfn hnm
    subst hfn
    simp [pyOrStr, hnm]
  · intro s
    unfold signup_endpoint
    rw [h]

/-- Witness for C9: updating the existing user `bob` and the rejected
duplicate signup for `bob`. -/
theorem create_or_update_overwrites_witness :
    (create_or_update exDbStart "bob" "newpw" (some "B") none).1.password =
      generate_password_hash "newpw"
    ∧ (signup_endpoint exSettings exDbStart "bob" "newpw" (some "B") none).1 =
      .error userAlreadyExistsErr := by
  have h := create_or_update_overwrites exDbStart "bob" "newpw" (some "B") none
    exUserBob (by decide)
  exact ⟨h.1, h.2.2.2.2.2.2.2 exSettings⟩

/-! ## C2 -/

/-- C2 counterexample: with `e@x` bound to `alice`, an OAuth sign-in whose
supplied login `ghost` matches **no** local user fails with
`IdentityConflict` — the claim says that with a null local match the bound
user must be adopted and sign-in must proceed.  The code's test
`oauth_user.user is not None and oauth_user.user != user` is true when
`user` is `None`, so the conflict fires. -/
theorem signin_conflict_without_local_match :
    get_by_login exDbLinked "ghost" = none
    ∧ (signin_endpoint exSettings exDbLinked [] 0 "ghost" none
        (some exAttempt)).1 = .error identityConflictErr := by
  exact ⟨rfl, by decide⟩

/-- C2 (amended): when a LinkedIdentity already exists for the resolved
email, the sign-in fails with `IdentityConflict` iff the identity's bound
user is non-null and differs from the user matched by the supplied login,
*including* when no local user matches the login at all; the bound user is
adopted (sign-in proceeds with it) only when it equals the non-null local
match; and when the identity's bound user is null the sign-in fails with
the distinct association error instead. -/
theorem signin_oauth_adopt_or_conflict
    (s : Settings) (db : Db) (cache : Cache) (now : Nat) (login : String)
    (att : OauthAttempt) (info : RemoteProfile) (email prov : String)
    (ou : OauthIdentity)
    (hprov : pyLower att.provider = "yandex")
    (hprof : att.profile = .ok info)
    (hemail : info.login = some email) (hne : email ≠ "")
    (hrow : get_oauth_provider_by_name db att.provider = some prov)
    (hou : get_by_oauth db email = some ou) :
    ((signin_endpoint s db cache now login none (some att)).1 =
        .error identityConflictErr ↔
      ∃ uid, ou.userId = some uid ∧
        (get_by_login db login).map (fun u => u.id) ≠ some uid)
    ∧ (∀ uid u, ou.userId = some uid → get_by_login db login = some u →
        u.id = uid →
        ∃ okv, (signin_endpoint s db cache now login none (some att)).1 = .ok okv
          ∧ okv.userId = uid)
    ∧ (ou.userId = none →
        (signin_endpoint s db cache now login none (some att)).1 =
          .error cannotFindAssociationErr) := by
  cases houid : ou.userId with
  | none =>
      have hres : (signin_endpoint s db cache now login none (some att)).1 =
          .error cannotFindAssociationErr := by
        unfold signin_endpoint
        simp [hprov, hprof, hemail, hne, hrow, hou, pyTruthy, oauthConflict, houid]
      refine ⟨?_, ?_, fun _ => hres⟩
      · rw [hres]
        constructor
        · intro hcontra
          injection hcontra with h
          exact absurd h (by decide)
        · rintro ⟨uid, huid, _⟩
          exact Option.noConfusion huid
      · intro uid u huid _ _
        exact Option.noConfusion huid
  | some uid =>
      by_cases hc : (get_by_login db login).map (fun u => u.id) = some uid
      · obtain ⟨u, hu0, hid⟩ := Option.map_eq_some'.mp hc
        have hmem : u ∈ db.users :=
          List.mem_of_find?_eq_some (by simpa [get_by_login] using hu0)
        have hex : (db.users.find? (fun v => v.id = uid)).isSome :=
          List.find?_isSome.mpr ⟨u, hmem, by simp [hid]⟩
        obtain ⟨w, hw⟩ := Option.isSome_iff_exists.mp hex
        have hwid : w.id = uid := by simpa using List.find?_some hw
        have hres : ∃ okv,
            (signin_endpoint s db cache now login none (some att)).1 = .ok okv
            ∧ okv.userId = uid := by
          unfold signin_endpoint
          simp [hprov, hprof, hemail, hne, hrow, hou, pyTruthy, oauthConflict,
            houid, hu0, hid, hw, hwid, signinFinish]
        obtain ⟨okv, hok, hokid⟩ := hres
        refine ⟨?_, ?_, ?_⟩
        · rw [hok]
          constructor
          · intro hcontra
            cases hcontra
          · rintro ⟨uid2, huid2, hdiff⟩
            injection huid2 with h2
            subst h2
            exact absurd hc hdiff
        · intro uid2 u2 huid2 _ _
          injection huid2 with h2
          subst h2
          exact ⟨okv, hok, hokid⟩
        · intro hnone
          exact Option.noConfusion hnone
      · have hres : (signin_endpoint s db cache now login none (some att)).1 =
            .error identityConflictErr := by
          unfold signin_endpoint
          simp [hprov, hprof, hemail, hne, hrow, hou, pyTruthy, oauthConflict,
            houid, hc]
        refine ⟨?_, ?_, ?_⟩
        · rw [hres]
          exact ⟨fun _ => ⟨uid, rfl, hc⟩, fun _ => rfl⟩
        · intro uid2 u2 huid2 hu02 hid2
          injection huid2 with h2
          subst h2
          refine absurd ?_ hc
          rw [hu02]
          simp [hid2]
        · intro hnone
          exact Option.noConfusion hnone

/-- Witness for C2's amended theorem: `e@x` is bound to `alice` and the
supplied login is `alice`, so the bound user is adopted and sign-in
succeeds. -/
theorem signin_oauth_adopt_or_conflict_witness :
    ∃ okv, (signin_endpoint exSettings exDbLinked [] 0 "alice" none
      (some exAttempt)).1 = .ok okv ∧ okv.userId = 0 := by
  exact (signin_oauth_adopt_or_conflict exSettings exDbLinked [] 0 "alice"
    exAttempt exProfile "e@x" "yandex"
    { email := "e@x", userId := some 0, provider := some "yandex" }
    rfl rfl rfl (by decide) rfl rfl).2.1 0
    { id := 0, login := "alice", password := .hashOf "pw" } rfl rfl rfl

/-! ## C7 -/

/-- C7 counterexample: start from a store holding only the unrelated user
`bob`; a first OAuth sign-in for the fresh email `e@x` with the fresh login
`alice` succeeds and creates the User/LinkedIdentity pair, but the claim's
"every subsequent sign-in resolving to the same E reuses both records" is
false: a subsequent sign-in for the same `e@x` supplying the login `bob`
fails with `IdentityConflict` instead of reusing the records. -/
theorem signin_second_login_conflict :
    (signin_endpoint exSettings exDbStart [] 0 "alice" none
        (some exAttempt)).1.isOk = true
    ∧ (signin_endpoint exSettings
        (signin_endpoint exSettings exDbStart [] 0 "alice" none (some exAttempt)).2.1
        (signin_endpoint exSettings exDbStart [] 0 "alice" none (some exAttempt)).2.2
        10 "bob" none (some exAttempt)).1 = .error identityConflictErr := by
  exact ⟨by decide, by decide⟩

/-- C7 (amended): a first OAuth sign-in whose resolved email has never been
seen and whose supplied login matches no user creates exactly one new user
(with the random placeholder password hashed and the default role assigned)
and exactly one LinkedIdentity bound to that user; a subsequent sign-in for
the same email *with the same supplied login* succeeds reusing both records
and creates no duplicate user or identity row; a subsequent sign-in for the
same email with a login that does not resolve to the bound user instead
fails with `IdentityConflict` (see the counterexample). -/
theorem signin_oauth_fresh_email
    (s : Settings) (db : Db) (cache : Cache) (now now2 : Nat) (login : String)
    (att : OauthAttempt) (info : RemoteProfile) (email prov : String)
    (hprov : pyLower att.provider = "yandex")
    (hprof : att.profile = .ok info)
    (hemail : info.login = some email) (hne : email ≠ "")
    (hrow : get_oauth_provider_by_name db att.provider = some prov)
    (hu0 : get_by_login db login = none)
    (hou : get_by_oauth db email = none) :
    (∃ okv, (signin_endpoint s db cache now login none (some att)).1 = .ok okv
       ∧ okv.userId = db.nextUserId ∧ okv.userLogin = login)
    ∧ (signin_endpoint s db cache now login none (some att)).2.1.users.length
        = db.users.length + 1
    ∧ (signin_endpoint s db cache now login none (some att)).2.1.identities.length
        = db.identities.length + 1
    ∧ get_by_login (signin_endpoint s db cache now login none (some att)).2.1 login
        = some { id := db.nextUserId, login := login
                 password := generate_password_hash att.randomPassword
                 firstName := info.firstName, lastName := info.lastName }
    ∧ get_by_oauth (signin_endpoint s db cache now login none (some att)).2.1 email
        = some { email := email, firstName := info.firstName
                 lastName := info.lastName, userId := some db.nextUserId
                 provider := some prov }
    ∧ UserRoleRec.mk db.nextUserId s.defaultRoleUuid
        ∈ (signin_endpoint s db cache now login none (some att)).2.1.userRoles
    ∧ (∃ okv2,
        (signin_endpoint s
          (signin_endpoint s db cache now login none (some att)).2.1
          (signin_endpoint s db cache now login none (some att)).2.2
          now2 login none (some att)).1 = .ok okv2
        ∧ (signin_endpoint s
            (signin_endpoint s db cache now login none (some att)).2.1
            (signin_endpoint s db cache now login none (some att)).2.2
            now2 login none (some att)).2.1.users.length
          = (signin_endpoint s db cache now login none (some att)).2.1.users.length
        ∧ (signin_endpoint s
            (signin_endpoint s db cache now login none (some att)).2.1
            (signin_endpoint s db cache now login none (some att)).2.2
            now2 login none (some att)).2.1.identities.length
          = (signin_endpoint s db cache now login none (some att)).2.1.identities.length) := by
  have hu0' : db.users.find? (fun u => u.login = login) = none := by
    simpa [get_by_login] using hu0
  have hou' : db.identities.find? (fun x => x.email = email) = none := by
    simpa [get_by_oauth] using hou
  have hrow' : db.providers.find? (fun p => p = att.provider) = some prov := by
    simpa [get_oauth_provider_by_name] using hrow
  have hfind1 : (db.users ++
      [({ id := db.nextUserId, login := login
          password := generate_password_hash att.randomPassword
          firstName := info.firstName, lastName := info.lastName } : UserRec)]).find?
        (fun u => u.login = login) =
      some ({ id := db.nextUserId, login := login
              password := generate_password_hash att.randomPassword
              firstName := info.firstName, lastName := info.lastName } : UserRec) :=
    find?_append_of_none _ _ _ hu0' (by simp)
  have hfind2 : (db.identities ++
      [({ email := email, firstName := info.firstName
          lastName := info.lastName, userId := some db.nextUserId
          provider := some prov } : OauthIdentity)]).find?
        (fun x => x.email = email) =
      some ({ email := email, firstName := info.firstName
              lastName := info.lastName, userId := some db.nextUserId
              provider := some prov } : OauthIdentity) :=
    find?_append_of_none _ _ _ hou' (by simp)
  refine ⟨?_, ?_, ?_, ?_, ?_, ?_, ?_⟩
  · unfold signin_endpoint
    simp [hprov, hprof, hemail, hne, pyTruthy, oauthConflict, get_by_login,
      hu0', create_or_update, assign_role, get_by_oauth, hou',
      get_oauth_provider_by_name, hrow', hfind1, oauth_create_or_update,
      add_to_history, signinFinish]
  · unfold signin_endpoint
    simp [hprov, hprof, hemail, hne, pyTruthy, oauthConflict, get_by_login,
      hu0', create_or_update, assign_role, get_by_oauth, hou',
      get_oauth_provider_by_name, hrow', hfind1, oauth_create_or_update,
      add_to_history, signinFinish]
  · unfold signin_endpoint
    simp [hprov, hprof, hemail, hne, pyTruthy, oauthConflict, get_by_login,
      hu0', create_or_update, assign_role, get_by_oauth, hou',
      get_oauth_provider_by_name, hrow', hfind1, oauth_create_or_update,
      add_to_history, signinFinish]
  · unfold signin_endpoint
    simp [hprov, hprof, hemail, hne, pyTruthy, oauthConflict, get_by_login,
      hu0', create_or_update, assign_role, get_by_oauth, hou',
      get_oauth_provider_by_name, hrow', hfind1, oauth_create_or_update,
      add_to_history, signinFinish]
  · unfold signin_endpoint
    simp [hprov, hprof, hemail, hne, pyTruthy, oauthConflict, get_by_login,
      hu0', create_or_update, assign_role, get_by_oauth, hou',
      get_oauth_provider_by_name, hrow', hfind1, hfind2, oauth_create_or_update,
      add_to_history, signinFinish]
  · unfold signin_endpoint
    simp [hprov, hprof, hemail, hne, pyTruthy, oauthConflict, get_by_login,
      hu0', create_or_update, assign_role, get_by_oauth, hou',
      get_oauth_provider_by_name, hrow', hfind1, oauth_create_or_update,
      add_to_history, signinFinish]
  · unfold signin_endpoint
    simp [hprov, hprof, hemail, hne, pyTruthy, oauthConflict, get_by_login,
      hu0', create_or_update, assign_role, get_by_oauth, hou',
      get_oauth_provider_by_name, hrow', hfind1, hfind2,
      oauth_create_or_update, add_to_history, signinFinish]
    cases ho : List.find? (fun v => decide (v.id = db.nextUserId)) db.users with
    | none => simp
    | some w2 => simp

/-- Witness for C7's amended theorem: the concrete first sign-in for
`alice`/`e@x` on the `bob`-only store creates the two rows, and the second
identical sign-in reuses them. -/
theorem signin_oauth_fresh_email_witness :
    (∃ okv, (signin_endpoint exSettings exDbStart [] 0 "alice" none
        (some exAttempt)).1 = .ok okv ∧ okv.userId = 2 ∧ okv.userLogin = "alice")
    ∧ (signin_endpoint exSettings exDbStart [] 0 "alice" none
        (some exAttempt)).2.1.users.length = 2
    ∧ (∃ okv2,
        (signin_endpoint exSettings
          (signin_endpoint exSettings exDbStart [] 0 "alice" none (some exAttempt)).2.1
          (signin_endpoint exSettings exDbStart [] 0 "alice" none (some exAttempt)).2.2
          7 "alice" none (some exAttempt)).1 = .ok okv2
        ∧ (signin_endpoint exSettings
            (signin_endpoint exSettings exDbStart [] 0 "alice" none (some exAttempt)).2.1
            (signin_endpoint exSettings exDbStart [] 0 "alice" none (some exAttempt)).2.2
            7 "alice" none (some exAttempt)).2.1.users.length
          = (signin_endpoint exSettings exDbStart [] 0 "alice" none
              (some exAttempt)).2.1.users.length) := by
  have h := signin_oauth_fresh_email exSettings exDbStart [] 0 7 "alice"
    exAttempt exProfile "e@x" "yandex" rfl rfl rfl (by decide) rfl rfl rfl
  refine ⟨h.1, ?_, ?_⟩
  · rw [h.2.1]
    rfl
  · obtain ⟨okv2, hok2, hlen2, _⟩ := h.2.2.2.2.2.2
    exact ⟨okv2, hok2, hlen2⟩

/-! ## C8 -/

theorem waitSeq_le_border (i : Nat) : waitSeq i ≤ 10 :=
  min_le_right _ _

theorem waitSeq_mono {i j : Nat} (h : i ≤ j) : waitSeq i ≤ waitSeq j := by
  unfold waitSeq
  have h2 : ((1 : ℚ) / 10) * 2 ^ i ≤ (1 / 10) * 2 ^ j := by
    have hp : ((2 : ℚ)) ^ i ≤ 2 ^ j :=
      pow_le_pow_right₀ (by norm_num) h
    nlinarith [hp]
  exact min_le_min h2 (le_refl 10)

theorem waitSeq_step (i : Nat) :
    (if waitSeq i < 10 then min ((1 / 10 : ℚ) * 2 ^ (i + 1)) 10 else waitSeq i) =
      waitSeq (i + 1) := by
  by_cases hw : waitSeq i < 10
  · rw [if_pos hw]
    rfl
  · rw [if_neg hw]
    have h10 : waitSeq i = 10 := le_antisymm (waitSeq_le_border i) (not_lt.mp hw)
    have ha : (10 : ℚ) ≤ (1 / 10) * 2 ^ i := min_eq_right_iff.mp h10
    have hb : (10 : ℚ) ≤ (1 / 10) * 2 ^ (i + 1) := by
      rw [pow_succ]
      nlinarith [ha]
    rw [h10]
    unfold waitSeq
    rw [min_eq_right hb]

/-- A run all of whose call attempts hit transport errors exhausts the
attempt budget and sleeps exactly `min(0.1 * 2^i, 10)` before each retry. -/
theorem backoffAux_transport_closed {α : Type} (em : Nat)
    (behavior : Nat → CallResult α)
    (htr : ∀ k, behavior k = .transportError) :
    ∀ (n attempt : Nat) (wt : ℚ) (acc : List ℚ), em - attempt = n →
      wt = waitSeq attempt →
      backoffAux em behavior (1 / 10) 2 10 attempt wt acc =
        .maxRetryExceeded
          (acc.reverse ++ (List.range n).map (fun j => waitSeq (attempt + j))) := by
  intro n
  induction n with
  | zero =>
      intro attempt wt acc hn hwt
      unfold backoffAux
      rw [dif_neg (by omega)]
      simp
  | succ n ih =>
      intro attempt wt acc hn hwt
      unfold backoffAux
      rw [dif_pos (by omega : attempt < em), htr attempt]
      rw [ih (attempt + 1) _ (wt :: acc) (by omega)
        (by rw [hwt]; exact waitSeq_step attempt)]
      rw [List.reverse_cons, List.append_assoc]
      rw [List.range_succ_eq_map]
      simp only [List.map_cons, List.map_map, List.singleton_append,
        Nat.add_zero, Function.comp]
      rw [hwt]
      have hmap : List.map (fun j => waitSeq (attempt + 1 + j)) (List.range n)
          = List.map (fun j => waitSeq (attempt + (j + 1))) (List.range n) :=
        List.map_congr_left (fun j _ => by
          congr 1
          omega)
      rw [hmap]
      rfl

/-- Whatever the behavior, a run sleeps at most `errorsMax` times, and
every sleep was caused by a transport error on the corresponding attempt
(retries never happen for any other reason). -/
theorem backoffAux_waits_spec {α : Type} (em : Nat)
    (behavior : Nat → CallResult α) (st f b : ℚ) :
    ∀ (n attempt : Nat) (wt : ℚ) (acc : List ℚ), em - attempt = n →
      ∃ extra,
        (backoffAux em behavior st f b attempt wt acc).waits = acc.reverse ++ extra
        ∧ extra.length ≤ n
        ∧ ∀ j, j < extra.length → behavior (attempt + j) = .transportError := by
  intro n
  induction n with
  | zero =>
      intro attempt wt acc hn
      unfold backoffAux
      rw [dif_neg (by omega)]
      exact ⟨[], by simp [BackoffOutcome.waits], by simp, by simp⟩
  | succ n ih =>
      intro attempt wt acc hn
      unfold backoffAux
      rw [dif_pos (by omega : attempt < em)]
      cases hb : behavior attempt with
      | success a =>
          exact ⟨[], by simp [BackoffOutcome.waits], by simp, by simp⟩
      | appError e =>
          exact ⟨[], by simp [BackoffOutcome.waits], by simp, by simp⟩
      | transportError =>
          obtain ⟨extra, hw, hlen, hbeh⟩ := ih (attempt + 1)
            (if wt < b then min (st * f ^ (attempt + 1)) b else wt)
            (wt :: acc) (by omega)
          refine ⟨wt :: extra, ?_, by simpa using Nat.succ_le_succ hlen, ?_⟩
          · rw [hw, List.reverse_cons, List.append_assoc]
            rfl
          · intro j hj
            cases j with
            | zero => simpa using hb
            | succ j =>
                have hj2 : j < extra.length := by
                  simpa using Nat.lt_of_succ_lt_succ hj
                have := hbeh j hj2
                rw [show attempt + (j + 1) = attempt + 1 + j by omega]
                exact this

/-- C8: retries happen only on transport-level call failures — an
application-level error (such as the provider's `error` response, which the
gateway surfaces as `HTTPException`) aborts the loop at once and is never
retried; the loop is bounded by the configured maximum attempt count; the
waits grow exponentially as `min(0.1 * 2^i, 10)`, capped at the
10-second border and monotone; and exhausting the bound yields the
max-retry failure (the spec's `UpstreamUnavailable`). -/
theorem backoff_retry_policy {α : Type} (behavior : Nat → CallResult α)
    (em k : Nat) (e : HTTPError)
    (responses : Nat → ProviderResponse) (desc : String) :
    (0 < em → behavior 0 = .appError e →
      backoff_run em behavior = .appError e 1 [])
    ∧ (backoff_run em behavior).waits.length ≤ em
    ∧ (∀ j, j < (backoff_run em behavior).waits.length →
        behavior j = .transportError)
    ∧ ((∀ j, behavior j = .transportError) →
        backoff_run em behavior = .maxRetryExceeded ((List.range em).map waitSeq))
    ∧ (∀ i, waitSeq i ≤ 10)
    ∧ (∀ i j, i ≤ j → waitSeq i ≤ waitSeq j)
    ∧ (responses k = .errorField desc →
        (backoff_run em
          (fun i => get_access_token_attempt (responses i))).waits.length ≤ k) := by
  have hwt0 : (1 / 10 : ℚ) = waitSeq 0 := by
    unfold waitSeq
    rw [pow_zero, mul_one, min_eq_left (by norm_num)]
  obtain ⟨extra, hw, hlen, hbeh⟩ :=
    backoffAux_waits_spec em behavior (1 / 10) 2 10 em 0 (1 / 10) [] (by omega)
  have hwaits : (backoff_run em behavior).waits = extra := by
    simpa [backoff_run] using hw
  refine ⟨?_, ?_, ?_, ?_, waitSeq_le_border, fun i j h => waitSeq_mono h, ?_⟩
  · intro hem h0
    unfold backoff_run backoffAux
    rw [dif_pos hem, h0]
    rfl
  · rw [hwaits]
    simpa using hlen
  · intro j hj
    rw [hwaits] at hj
    simpa using hbeh j hj
  · intro htr
    unfold backoff_run
    rw [backoffAux_transport_closed em behavior htr em 0 _ [] (by omega) hwt0]
    simp
  · intro hresp
    by_contra hlt
    push_neg at hlt
    obtain ⟨extra2, hw2, hlen2, hbeh2⟩ :=
      backoffAux_waits_spec em (fun i => get_access_token_attempt (responses i))
        (1 / 10) 2 10 em 0 (1 / 10) [] (by omega)
    have hwaits2 : (backoff_run em
        (fun i => get_access_token_attempt (responses i))).waits = extra2 := by
      simpa [backoff_run] using hw2
    rw [hwaits2] at hlt
    have htrk := hbeh2 k (by omega)
    rw [Nat.zero_add, hresp] at htrk
    simp [get_access_token_attempt] at htrk

/-- Witness for C8: with the default `errors_max = 10`, an all-transport
behavior exhausts the budget with the closed-form waits, and a behavior
whose first call hits the provider's application-level `error` response is
not retried. -/
theorem backoff_retry_policy_witness :
    backoff_run 10 (fun _ => (CallResult.transportError : CallResult Nat)) =
      .maxRetryExceeded ((List.range 10).map waitSeq)
    ∧ backoff_run 10
        (fun _ => get_access_token_attempt (ProviderResponse.errorField "bad code")) =
      .appError ⟨400, "bad code"⟩ 1 [] := by
  constructor
  · exact (backoff_retry_policy (fun _ => (CallResult.transportError : CallResult Nat))
      10 0 ⟨400, ""⟩ (fun _ => ProviderResponse.transportFailure) "").2.2.2.1
      (fun _ => rfl)
  · exact (backoff_retry_policy
      (fun _ => get_access_token_attempt (ProviderResponse.errorField "bad code"))
      10 0 ⟨400, "bad code"⟩ (fun _ => ProviderResponse.errorField "bad code") "").1
      (by norm_num) rfl

end Auth
